import Mathlib

/-!
Verification of the software rasterizer (shaders.rs and main.rs): the vertex
transform stage, the procedural fragment-shader library with its dispatch, the
render driver's triangle assembly and bounds filtering, and the per-frame orbit
computation.  Scalars that are f32 in the source are modelled as exact
rationals; external library functions (f32 sin/cos/sqrt, the rand crate's
seeded generator, the fastnoise_lite samplers) are modelled as abstract pure
functions, which matches their documented deterministic behaviour.
-/

/-- Exact-arithmetic model of the f32 scalars used by the renderer. -/
abbrev F := ℚ

/-- 2-component vector (nalgebra Vec2). -/
@[ext]
structure Vec2 where
  (x y : F)
  deriving DecidableEq, Inhabited

/-- 3-component vector (nalgebra Vec3). -/
@[ext]
structure Vec3 where
  (x y z : F)
  deriving DecidableEq, Inhabited

/-- 4-component vector (nalgebra Vec4). -/
@[ext]
structure Vec4 where
  (x y z w : F)
  deriving DecidableEq, Inhabited

/-- Row-major 3x3 matrix (nalgebra Mat3). -/
@[ext]
structure Mat3 where
  (m00 m01 m02 : F)
  (m10 m11 m12 : F)
  (m20 m21 m22 : F)
  deriving DecidableEq, Inhabited

/-- Row-major 4x4 matrix (nalgebra Mat4, entries in the order of Mat4::new). -/
@[ext]
structure Mat4 where
  (m00 m01 m02 m03 : F)
  (m10 m11 m12 m13 : F)
  (m20 m21 m22 m23 : F)
  (m30 m31 m32 m33 : F)
  deriving DecidableEq, Inhabited

/-- Matrix-vector product for 4x4 matrices. -/
def mulVec4 (m : Mat4) (v : Vec4) : Vec4 :=
  ⟨m.m00 * v.x + m.m01 * v.y + m.m02 * v.z + m.m03 * v.w,
   m.m10 * v.x + m.m11 * v.y + m.m12 * v.z + m.m13 * v.w,
   m.m20 * v.x + m.m21 * v.y + m.m22 * v.z + m.m23 * v.w,
   m.m30 * v.x + m.m31 * v.y + m.m32 * v.z + m.m33 * v.w⟩

/-- Matrix product for 4x4 matrices. -/
def mul4 (a b : Mat4) : Mat4 :=
  ⟨a.m00 * b.m00 + a.m01 * b.m10 + a.m02 * b.m20 + a.m03 * b.m30,
   a.m00 * b.m01 + a.m01 * b.m11 + a.m02 * b.m21 + a.m03 * b.m31,
   a.m00 * b.m02 + a.m01 * b.m12 + a.m02 * b.m22 + a.m03 * b.m32,
   a.m00 * b.m03 + a.m01 * b.m13 + a.m02 * b.m23 + a.m03 * b.m33,
   a.m10 * b.m00 + a.m11 * b.m10 + a.m12 * b.m20 + a.m13 * b.m30,
   a.m10 * b.m01 + a.m11 * b.m11 + a.m12 * b.m21 + a.m13 * b.m31,
   a.m10 * b.m02 + a.m11 * b.m12 + a.m12 * b.m22 + a.m13 * b.m32,
   a.m10 * b.m03 + a.m11 * b.m13 + a.m12 * b.m23 + a.m13 * b.m33,
   a.m20 * b.m00 + a.m21 * b.m10 + a.m22 * b.m20 + a.m23 * b.m30,
   a.m20 * b.m01 + a.m21 * b.m11 + a.m22 * b.m21 + a.m23 * b.m31,
   a.m20 * b.m02 + a.m21 * b.m12 + a.m22 * b.m22 + a.m23 * b.m32,
   a.m20 * b.m03 + a.m21 * b.m13 + a.m22 * b.m23 + a.m23 * b.m33,
   a.m30 * b.m00 + a.m31 * b.m10 + a.m32 * b.m20 + a.m33 * b.m30,
   a.m30 * b.m01 + a.m31 * b.m11 + a.m32 * b.m21 + a.m33 * b.m31,
   a.m30 * b.m02 + a.m31 * b.m12 + a.m32 * b.m22 + a.m33 * b.m32,
   a.m30 * b.m03 + a.m31 * b.m13 + a.m32 * b.m23 + a.m33 * b.m33⟩

/-- The upper-left 3x3 block of a 4x4 matrix (nalgebra_glm mat4_to_mat3). -/
def mat4_to_mat3 (m : Mat4) : Mat3 :=
  ⟨m.m00, m.m01, m.m02, m.m10, m.m11, m.m12, m.m20, m.m21, m.m22⟩

/-- Transpose of a 3x3 matrix. -/
def transpose3 (m : Mat3) : Mat3 :=
  ⟨m.m00, m.m10, m.m20, m.m01, m.m11, m.m21, m.m02, m.m12, m.m22⟩

/-- Determinant of a 3x3 matrix. -/
def det3 (m : Mat3) : F :=
  m.m00 * (m.m11 * m.m22 - m.m12 * m.m21)
    - m.m01 * (m.m10 * m.m22 - m.m12 * m.m20)
    + m.m02 * (m.m10 * m.m21 - m.m11 * m.m20)

/-- Cofactor inverse of a 3x3 matrix (meaningful when the determinant is
nonzero; this is the formula nalgebra uses in try_inverse). -/
def inv3 (m : Mat3) : Mat3 :=
  ⟨(m.m11 * m.m22 - m.m12 * m.m21) / det3 m,
   (m.m02 * m.m21 - m.m01 * m.m22) / det3 m,
   (m.m01 * m.m12 - m.m02 * m.m11) / det3 m,
   (m.m12 * m.m20 - m.m10 * m.m22) / det3 m,
   (m.m00 * m.m22 - m.m02 * m.m20) / det3 m,
   (m.m02 * m.m10 - m.m00 * m.m12) / det3 m,
   (m.m10 * m.m21 - m.m11 * m.m20) / det3 m,
   (m.m01 * m.m20 - m.m00 * m.m21) / det3 m,
   (m.m00 * m.m11 - m.m01 * m.m10) / det3 m⟩

/-- nalgebra Matrix3::try_inverse: none when the determinant is zero. -/
def try_inverse3 (m : Mat3) : Option Mat3 :=
  if det3 m = 0 then none else some (inv3 m)

/-- The 3x3 identity matrix (Mat3::identity). -/
def id3 : Mat3 := ⟨1, 0, 0, 0, 1, 0, 0, 0, 1⟩

/-- The 4x4 identity matrix. -/
def id4 : Mat4 := ⟨1, 0, 0, 0, 0, 1, 0, 0, 0, 0, 1, 0, 0, 0, 0, 1⟩

/-- 3x3 matrix-vector product. -/
def mul3v (m : Mat3) (v : Vec3) : Vec3 :=
  ⟨m.m00 * v.x + m.m01 * v.y + m.m02 * v.z,
   m.m10 * v.x + m.m11 * v.y + m.m12 * v.z,
   m.m20 * v.x + m.m21 * v.y + m.m22 * v.z⟩

/-- Clamp an integer channel value into [0, 255]. -/
def clamp255 (n : ℤ) : ℤ := max 0 (min 255 n)

/-- Modelled from the spec: color.rs is not among the provided sources.  An
RGB triple of integers in [0,255]; new clamps its arguments into range,
scaling multiplies each channel by a scalar intensity and clamps, lerp
interpolates channelwise by a factor, and to_hex packs the channels as
0xRRGGBB. -/
structure Color where
  (r g b : ℤ)
  deriving DecidableEq, Inhabited

/-- Modelled from the spec: Color construction with channels clamped into
[0, 255]. -/
def Color.new (r g b : ℤ) : Color := ⟨clamp255 r, clamp255 g, clamp255 b⟩

/-- Modelled from the spec: scaling a color by a scalar intensity, each
channel multiplied and clamped. -/
def Color.scale (c : Color) (t : F) : Color :=
  ⟨clamp255 ⌊(c.r : F) * t⌋, clamp255 ⌊(c.g : F) * t⌋, clamp255 ⌊(c.b : F) * t⌋⟩

instance : HMul Color F Color := ⟨Color.scale⟩

/-- Modelled from the spec: channelwise linear interpolation between two
colors by a factor. -/
def Color.lerp (a b : Color) (t : F) : Color :=
  ⟨clamp255 ⌊(a.r : F) + ((b.r : F) - (a.r : F)) * t⌋,
   clamp255 ⌊(a.g : F) + ((b.g : F) - (a.g : F)) * t⌋,
   clamp255 ⌊(a.b : F) + ((b.b : F) - (a.b : F)) * t⌋⟩

/-- Modelled from the spec: the packed 0xRRGGBB encoding for the framebuffer. -/
def Color.to_hex (c : Color) : ℕ :=
  c.r.toNat * 65536 + c.g.toNat * 256 + c.b.toNat

/-- The fastnoise_lite noise field (external crate): per the spec a pure
sampler, a function of its coordinates and frozen internal configuration. -/
structure Noise where
  (get_noise_2d : F → F → F)
  (get_noise_3d : F → F → F → F)

/-- External library functions used by the code: std f32 sin/cos/sqrt and the
rand crate's seeded generator.  StdRng::seed_from_u64 followed by
gen_range(0..=100) is, per rand's documentation, a deterministic function of
the seed, modelled here as the abstract function rng100. -/
structure MathExt where
  (sin : F → F)
  (cos : F → F)
  (sqrt : F → F)
  (rng100 : ℕ → ℕ)

/-- The per-draw-call uniform bundle (main.rs struct Uniforms). -/
structure Uniforms where
  (model_matrix : Mat4)
  (view_matrix : Mat4)
  (projection_matrix : Mat4)
  (viewport_matrix : Mat4)
  (time : ℕ)
  (noise : Noise)

/-- Modelled from the spec: vertex.rs is not among the provided sources.  A
vertex record with object-space position/normal/tex_coords/color and the two
transformed fields written by the vertex shader. -/
structure Vertex where
  (position : Vec3)
  (normal : Vec3)
  (tex_coords : Vec2)
  (color : Color)
  (transformed_position : Vec3)
  (transformed_normal : Vec3)
  deriving DecidableEq, Inhabited

/-- Modelled from the spec: fragment.rs is not among the provided sources.  A
per-pixel fragment with screen position, depth, interpolated shading
coordinate, interpolated normal and a scalar lighting intensity. -/
structure Fragment where
  (position : Vec2)
  (depth : F)
  (vertex_position : Vec3)
  (normal : Vec3)
  (intensity : F)
  deriving DecidableEq, Inhabited

/-- Model of Rust's saturating float-to-unsigned cast (as u64 / as usize on a
64-bit target): truncation toward zero, negative values clamp to 0, large
values saturate at the maximum. -/
def castU64 (q : F) : ℕ :=
  if q ≤ 0 then 0 else min (Int.toNat ⌊q⌋) (2 ^ 64 - 1)

/-- shaders.rs vertex_shader: homogeneous transform by projection, view and
model matrices, perspective divide by w, viewport mapping, and normal
transform by the inverse of the transposed 3x3 model submatrix with an
identity fallback when that matrix is singular. -/
def vertex_shader (vertex : Vertex) (uniforms : Uniforms) : Vertex :=
  let position : Vec4 := ⟨vertex.position.x, vertex.position.y, vertex.position.z, 1⟩
  let transformed :=
    mulVec4 (mul4 (mul4 uniforms.projection_matrix uniforms.view_matrix)
      uniforms.model_matrix) position
  let w := transformed.w
  let transformed_position : Vec4 :=
    ⟨transformed.x / w, transformed.y / w, transformed.z / w, 1⟩
  let screen_position := mulVec4 uniforms.viewport_matrix transformed_position
  let model_mat3 := mat4_to_mat3 uniforms.model_matrix
  let normal_matrix := (try_inverse3 (transpose3 model_mat3)).getD id3
  let transformed_normal := mul3v normal_matrix vertex.normal
  { position := vertex.position
    normal := vertex.normal
    tex_coords := vertex.tex_coords
    color := vertex.color
    transformed_position := ⟨screen_position.x, screen_position.y, screen_position.z⟩
    transformed_normal := transformed_normal }

/-- shaders.rs black_and_white, the seed computation (line 64): time cast to
f32 times vertex_position.y times vertex_position.x. -/
def bwSeedVal (fragment : Fragment) (uniforms : Uniforms) : F :=
  (uniforms.time : F) * fragment.vertex_position.y * fragment.vertex_position.x

/-- shaders.rs black_and_white before the intensity scaling: seed the rand
generator with the truncated absolute seed value and pick black below 50,
white otherwise. -/
def bwChoice (ops : MathExt) (fragment : Fragment) (uniforms : Uniforms) : Color :=
  let seed := bwSeedVal fragment uniforms
  let random_number := ops.rng100 (castU64 |seed|)
  if random_number < 50 then Color.new 0 0 0 else Color.new 255 255 255

/-- shaders.rs black_and_white: the pseudo-random binary choice scaled by the
fragment intensity. -/
def black_and_white (ops : MathExt) (fragment : Fragment) (uniforms : Uniforms) : Color :=
  bwChoice ops fragment uniforms * fragment.intensity

/-- shaders.rs dalmata_shader. -/
def dalmata_shader (fragment : Fragment) (uniforms : Uniforms) : Color :=
  let zoom : F := 100
  let ox : F := 0
  let oy : F := 0
  let x := fragment.vertex_position.x
  let y := fragment.vertex_position.y
  let noise_value := uniforms.noise.get_noise_2d ((x + ox) * zoom) ((y + oy) * zoom)
  let spot_threshold : F := 1 / 2
  let spot_color := Color.new 255 255 255
  let base_color := Color.new 0 0 0
  let noise_color := if noise_value < spot_threshold then spot_color else base_color
  noise_color * fragment.intensity

/-- shaders.rs cloud_shader. -/
def cloud_shader (fragment : Fragment) (uniforms : Uniforms) : Color :=
  let zoom : F := 100
  let ox : F := 100
  let oy : F := 100
  let x := fragment.vertex_position.x
  let y := fragment.vertex_position.y
  let t := (uniforms.time : F) * (1 / 2)
  let noise_value := uniforms.noise.get_noise_2d (x * zoom + ox + t) (y * zoom + oy)
  let cloud_threshold : F := 1 / 2
  let cloud_color := Color.new 255 255 255
  let sky_color := Color.new 30 97 145
  let noise_color := if noise_value > cloud_threshold then cloud_color else sky_color
  noise_color * fragment.intensity

/-- shaders.rs cellular_shader. -/
def cellular_shader (fragment : Fragment) (uniforms : Uniforms) : Color :=
  let zoom : F := 30
  let ox : F := 50
  let oy : F := 50
  let x := fragment.vertex_position.x
  let y := fragment.vertex_position.y
  let cell_noise_value := |uniforms.noise.get_noise_2d (x * zoom + ox) (y * zoom + oy)|
  let cell_color_1 := Color.new 85 107 47
  let cell_color_2 := Color.new 124 252 0
  let cell_color_3 := Color.new 34 139 34
  let cell_color_4 := Color.new 173 255 47
  let final_color :=
    if cell_noise_value < 15 / 100 then cell_color_1
    else if cell_noise_value < 7 / 10 then cell_color_2
    else if cell_noise_value < 75 / 100 then cell_color_3
    else cell_color_4
  final_color * fragment.intensity

/-- shaders.rs lava_shader: averaged 3D noise with a pulsating z offset,
continuously blended between the dark and bright base colors by lerp. -/
def lava_shader (ops : MathExt) (fragment : Fragment) (uniforms : Uniforms) : Color :=
  let bright_color := Color.new 255 240 0
  let dark_color := Color.new 130 20 0
  let position : Vec3 := ⟨fragment.vertex_position.x, fragment.vertex_position.y, fragment.depth⟩
  let base_frequency : F := 2 / 10
  let pulsate_amplitude : F := 1 / 2
  let t := (uniforms.time : F) * (1 / 100)
  let pulsate := ops.sin (t * base_frequency) * pulsate_amplitude
  let zoom : F := 1000
  let noise_value1 :=
    uniforms.noise.get_noise_3d (position.x * zoom) (position.y * zoom)
      ((position.z + pulsate) * zoom)
  let noise_value2 :=
    uniforms.noise.get_noise_3d ((position.x + 1000) * zoom) ((position.y + 1000) * zoom)
      ((position.z + 1000 + pulsate) * zoom)
  let noise_value := (noise_value1 + noise_value2) * (1 / 2)
  let color := Color.lerp dark_color bright_color noise_value
  color * fragment.intensity

/-- shaders.rs rocky_planet_shader. -/
def rocky_planet_shader (fragment : Fragment) (uniforms : Uniforms) : Color :=
  let zoom : F := 50
  let ox : F := 10
  let oy : F := 20
  let x := fragment.vertex_position.x
  let y := fragment.vertex_position.y
  let noise_value := |uniforms.noise.get_noise_2d (x * zoom + ox) (y * zoom + oy)|
  let mountain_color := Color.new 139 69 19
  let plain_color := Color.new 205 133 63
  let lowland_color := Color.new 222 184 135
  let final_color :=
    if noise_value < 2 / 10 then lowland_color
    else if noise_value < 1 / 2 then plain_color
    else mountain_color
  final_color * fragment.intensity

/-- shaders.rs gaseous_planet_shader. -/
def gaseous_planet_shader (fragment : Fragment) (uniforms : Uniforms) : Color :=
  let zoom : F := 3 / 10
  let speed : F := 1 / 10
  let time := (uniforms.time : F) * speed
  let x := fragment.vertex_position.x
  let y := fragment.vertex_position.y
  let z := fragment.depth
  let noise_value := |uniforms.noise.get_noise_3d (x * zoom) ((y + time) * zoom) (z * zoom)|
  let gas_color_1 := Color.new 135 206 250
  let gas_color_2 := Color.new 176 224 230
  let gas_color_3 := Color.new 255 228 196
  let final_color :=
    if noise_value < 4 / 10 then gas_color_1
    else if noise_value < 7 / 10 then gas_color_2
    else gas_color_3
  final_color * fragment.intensity

/-- shaders.rs solar_shader. -/
def solar_shader (fragment : Fragment) (uniforms : Uniforms) : Color :=
  let zoom : F := 20
  let speed : F := 2 / 10
  let time := (uniforms.time : F) * speed
  let x := fragment.vertex_position.x
  let y := fragment.vertex_position.y
  let z := fragment.depth
  let noise_value1 := |uniforms.noise.get_noise_3d (x * zoom + time) (y * zoom) (z * zoom)|
  let noise_value2 :=
    |uniforms.noise.get_noise_3d ((x + 50) * zoom) ((y + 50) * zoom) ((z + time) * zoom)|
  let combined_noise := (noise_value1 + noise_value2) * (1 / 2)
  let core_color := Color.new 255 140 0
  let flare_color := Color.new 255 69 0
  let corona_color := Color.new 255 215 0
  let final_color :=
    if combined_noise < 3 / 10 then corona_color
    else if combined_noise < 6 / 10 then core_color
    else flare_color
  final_color * fragment.intensity

/-- shaders.rs earth_shader. -/
def earth_shader (fragment : Fragment) (uniforms : Uniforms) : Color :=
  let zoom : F := 20
  let speed : F := 1 / 10
  let time := (uniforms.time : F) * speed
  let x := fragment.vertex_position.x
  let y := fragment.vertex_position.y
  let z := fragment.depth
  let noise_value1 := |uniforms.noise.get_noise_3d (x * zoom + time) (y * zoom) (z * zoom)|
  let noise_value2 :=
    |uniforms.noise.get_noise_3d ((x + 50) * zoom) ((y + 50) * zoom) ((z + time) * zoom)|
  let combined_noise := (noise_value1 + noise_value2) * (1 / 2)
  let ocean_color := Color.new 0 105 148
  let land_color := Color.new 34 139 34
  let mountain_color := Color.new 139 69 19
  let final_color :=
    if combined_noise < 3 / 10 then ocean_color
    else if combined_noise < 6 / 10 then land_color
    else mountain_color
  final_color * fragment.intensity

/-- shaders.rs fragment_shader: dispatch on the sphere index (a usize, hence a
natural number), indices 0..7 select the eight procedural shaders and every
other index falls through to black_and_white. -/
def fragment_shader (ops : MathExt) (fragment : Fragment) (uniforms : Uniforms)
    (sphere_index : ℕ) : Color :=
  match sphere_index with
  | 0 => earth_shader fragment uniforms
  | 1 => dalmata_shader fragment uniforms
  | 2 => cloud_shader fragment uniforms
  | 3 => cellular_shader fragment uniforms
  | 4 => lava_shader ops fragment uniforms
  | 5 => rocky_planet_shader fragment uniforms
  | 6 => solar_shader fragment uniforms
  | 7 => gaseous_planet_shader fragment uniforms
  | _ => black_and_white ops fragment uniforms

/-- main.rs render, triangle-assembly loop (lines 117-126): walk the
transformed vertex list with an index stepping by 3, pushing a triangle only
when a full triple i, i+1, i+2 exists.  (The source loop keeps stepping past
the first incomplete triple; since every later index also fails the guard and
pushes nothing, stopping there is the same list.) -/
def buildTrianglesAux (vs : List Vertex) (i : ℕ) : List (Vertex × Vertex × Vertex) :=
  if i + 2 < vs.length then
    (vs.getD i default, vs.getD (i + 1) default, vs.getD (i + 2) default) ::
      buildTrianglesAux vs (i + 3)
  else
    []
termination_by vs.length - i
decreasing_by simp_wf; omega

/-- The triangle list render builds from a transformed vertex list. -/
def buildTriangles (vs : List Vertex) : List (Vertex × Vertex × Vertex) :=
  buildTrianglesAux vs 0

/-- Modelled from the spec: framebuffer.rs is not among the provided sources;
only the dimensions matter to the render driver's bounds check. -/
structure FramebufferDim where
  (width : ℕ)
  (height : ℕ)

/-- One framebuffer write performed by render: the set_current_color value
followed by the point call's coordinates and depth. -/
structure PointWrite where
  (color : ℕ)
  (x : ℕ)
  (y : ℕ)
  (depth : F)
  deriving DecidableEq

/-- main.rs render: shade every vertex, assemble consecutive triples into
triangles, rasterize each through the (external, here parametric) triangle
function, and for each fragment write its shaded color at its pixel only when
the pixel lies inside the framebuffer.  The sequence of framebuffer writes is
returned explicitly. -/
def render (tri : Vertex → Vertex → Vertex → List Fragment) (ops : MathExt)
    (fb : FramebufferDim) (uniforms : Uniforms) (vertex_array : List Vertex)
    (sphere_index : ℕ) : List PointWrite :=
  let transformed_vertices := vertex_array.map (fun v => vertex_shader v uniforms)
  let triangles := buildTriangles transformed_vertices
  let fragments := triangles.flatMap (fun t => tri t.1 t.2.1 t.2.2)
  fragments.filterMap (fun fragment =>
    let x := castU64 fragment.position.x
    let y := castU64 fragment.position.y
    if x < fb.width ∧ y < fb.height then
      some ⟨(fragment_shader ops fragment uniforms sphere_index).to_hex, x, y, fragment.depth⟩
    else
      none)

/-- nalgebra magnitude: the square root of the sum of squared components. -/
def magnitude (ops : MathExt) (v : Vec3) : F :=
  ops.sqrt (v.x * v.x + v.y * v.y + v.z * v.z)

/-- main.rs main loop, lines 226-233: the per-instance orbit position derived
each frame from the configured center (called position in the parameter
table), its angular speed and phase, and the frame counter. -/
def orbit_position (ops : MathExt) (position : Vec3) (speed phase : F) (time : ℕ) : Vec3 :=
  let orbit_radius := magnitude ops position
  let orbit_angle := (time : F) * speed * (1 / 100) + phase
  ⟨orbit_radius * ops.cos orbit_angle, orbit_radius * ops.sin orbit_angle, position.z⟩

/-- The orbit formula exactly as the claim states it: center plus
radius times (cos angle, sin angle, 0), with radius the magnitude of the
center and angle the same time-speed-phase expression. -/
def specOrbitClaim (ops : MathExt) (center : Vec3) (speed phase : F) (time : ℕ) : Vec3 :=
  let radius := magnitude ops center
  let angle := (time : F) * speed * (1 / 100) + phase
  ⟨center.x + radius * ops.cos angle, center.y + radius * ops.sin angle,
   center.z + radius * 0⟩

/-- The amended orbit formula: the circle is centered at the origin in x and y
(only the configured center's z survives as an offset), with the same radius
and angle. -/
def specOrbitAmended (ops : MathExt) (center : Vec3) (speed phase : F) (time : ℕ) : Vec3 :=
  let radius := magnitude ops center
  let angle := (time : F) * speed * (1 / 100) + phase
  ⟨radius * ops.cos angle, radius * ops.sin angle, center.z⟩

/-- The normal transform exactly as the spec states it: the inverse-transpose
of the model matrix's 3x3 submatrix, or the identity when that submatrix is
singular. -/
def specNormalMatrix (model : Mat4) : Mat3 :=
  match try_inverse3 (mat4_to_mat3 model) with
  | some inv => transpose3 inv
  | none => id3

/-- The w component the perspective divide in vertex_shader divides by. -/
def clipW (vertex : Vertex) (uniforms : Uniforms) : F :=
  (mulVec4 (mul4 (mul4 uniforms.projection_matrix uniforms.view_matrix)
    uniforms.model_matrix)
    ⟨vertex.position.x, vertex.position.y, vertex.position.z, 1⟩).w

/-- Modelled from the spec: the claimed degenerate-transform handling of the
vertex shader — a vertex whose homogeneous w comes out zero is skipped as a
degenerate no-draw (none); otherwise the ordinary shaded vertex is produced. -/
def vertex_shader_specC4 (vertex : Vertex) (uniforms : Uniforms) : Option Vertex :=
  if clipW vertex uniforms = 0 then none else some (vertex_shader vertex uniforms)

/-- A concrete interpretation of the external math functions, used to evaluate
witnesses and counterexamples: sin and cos are the degree-one and degree-two
Taylor polynomials (exact at 0, where they are evaluated), sqrt is the exact
integer square root (exact on the perfect squares where it is evaluated), and
the seeded generator is an arbitrary deterministic reduction mod 101. -/
def exOps : MathExt where
  sin := fun q => q
  cos := fun q => 1 - q * q / 2
  sqrt := fun q => (Nat.sqrt q.num.toNat : F)
  rng100 := fun seed => seed % 101

/-- A noise field that is identically zero. -/
def noise0 : Noise := ⟨fun _ _ => 0, fun _ _ _ => 0⟩

/-- A noise field returning the constant t from every sampler. -/
def constNoise (t : F) : Noise := ⟨fun _ _ => t, fun _ _ _ => t⟩

/-- Identity-matrix uniforms at time 0 with zero noise. -/
def u0 : Uniforms := ⟨id4, id4, id4, id4, 0, noise0⟩

/-- Uniforms whose noise samplers all return the constant t (identity
matrices, time 0). -/
def uLerp (t : F) : Uniforms := ⟨id4, id4, id4, id4, 0, constNoise t⟩

/-- A projection matrix whose bottom row is zero, so every transformed vertex
gets homogeneous w = 0. -/
def projW0 : Mat4 := ⟨1, 0, 0, 0, 0, 1, 0, 0, 0, 0, 1, 0, 0, 0, 0, 0⟩

/-- Uniforms that make the homogeneous w of every vertex zero. -/
def uC4 : Uniforms := ⟨id4, id4, projW0, id4, 0, noise0⟩

/-- A concrete vertex. -/
def v1 : Vertex :=
  ⟨⟨1, 2, 3⟩, ⟨0, 0, 1⟩, ⟨0, 0⟩, Color.new 255 0 0, ⟨0, 0, 0⟩, ⟨0, 0, 0⟩⟩

/-- A concrete in-bounds fragment at pixel (0,0) with intensity 1. -/
def frag0 : Fragment := ⟨⟨0, 0⟩, 0, ⟨0, 0, 0⟩, ⟨0, 0, 1⟩, 1⟩

/-- A concrete fragment with intensity 1 used by the lava counterexample. -/
def fragI : Fragment := ⟨⟨0, 0⟩, 0, ⟨0, 0, 0⟩, ⟨0, 0, 1⟩, 1⟩

/-- A rasterizer stand-in that always emits the single fragment frag0. -/
def tri0 : Vertex → Vertex → Vertex → List Fragment := fun _ _ _ => [frag0]

/-- The determinant is invariant under transposition. -/
theorem det3_transpose (a : Mat3) : det3 (transpose3 a) = det3 a := by
  simp only [det3, transpose3]
  ring

/-- The cofactor inverse commutes with transposition. -/
theorem inv3_transpose (a : Mat3) : inv3 (transpose3 a) = transpose3 (inv3 a) := by
  simp only [inv3, transpose3, det3_transpose]
  ext <;> simp only [det3] <;> ring

/-- The normal matrix computed by vertex_shader (inverse of the transposed
3x3 model block, identity fallback) agrees with the spec's inverse-transpose
with identity fallback. -/
theorem normalMatrix_agrees (a : Mat3) :
    (try_inverse3 (transpose3 a)).getD id3 =
      (match try_inverse3 a with
        | some inv => transpose3 inv
        | none => id3) := by
  by_cases h : det3 a = 0
  · simp [try_inverse3, det3_transpose, h]
  · simp [try_inverse3, det3_transpose, h, inv3_transpose]

/-- Closed form of the triangle-assembly loop from any start index: the
triples at indices i, i+3, i+6, ..., one for each full group of three
remaining vertices. -/
theorem buildTrianglesAux_eq (vs : List Vertex) (i : ℕ) :
    buildTrianglesAux vs i =
      (List.range ((vs.length - i) / 3)).map (fun k =>
        (vs.getD (i + 3 * k) default, vs.getD (i + 3 * k + 1) default,
          vs.getD (i + 3 * k + 2) default)) := by
  induction i using buildTrianglesAux.induct vs with
  | case1 i h ih =>
    rw [buildTrianglesAux, if_pos h, ih]
    have h3 : (vs.length - i) / 3 = (vs.length - (i + 3)) / 3 + 1 := by omega
    rw [h3, List.range_succ_eq_map, List.map_cons, List.map_map]
    congr 1
    apply List.map_congr_left
    intro k hk
    simp only [Function.comp_apply]
    have e0 : i + 3 + 3 * k = i + 3 * (k + 1) := by ring
    rw [e0]
  | case2 i h =>
    rw [buildTrianglesAux, if_neg h]
    have h3 : (vs.length - i) / 3 = 0 := by omega
    rw [h3]
    rfl

/-- C1: fragment_shader is a total dispatch over the material index: indices
0 through 7 select the earth, dalmata, cloud, cellular, lava, rocky, solar
and gaseous shaders respectively, and every other index (the index is a
usize, so any other natural number) falls back to black_and_white, so a Color
is returned for every index. -/
theorem C1_dispatch_total (ops : MathExt) (f : Fragment) (u : Uniforms) :
    fragment_shader ops f u 0 = earth_shader f u ∧
    fragment_shader ops f u 1 = dalmata_shader f u ∧
    fragment_shader ops f u 2 = cloud_shader f u ∧
    fragment_shader ops f u 3 = cellular_shader f u ∧
    fragment_shader ops f u 4 = lava_shader ops f u ∧
    fragment_shader ops f u 5 = rocky_planet_shader f u ∧
    fragment_shader ops f u 6 = solar_shader f u ∧
    fragment_shader ops f u 7 = gaseous_planet_shader f u ∧
    ∀ i : ℕ, 8 ≤ i → fragment_shader ops f u i = black_and_white ops f u := by
  refine ⟨rfl, rfl, rfl, rfl, rfl, rfl, rfl, rfl, ?_⟩
  intro i hi
  obtain ⟨k, rfl⟩ := Nat.exists_eq_add_of_le' hi
  rfl

/-- Witness for C1 at the concrete out-of-range index 9. -/
theorem C1_dispatch_total_witness :
    fragment_shader exOps frag0 u0 9 = black_and_white exOps frag0 u0 :=
  (C1_dispatch_total exOps frag0 u0).2.2.2.2.2.2.2.2 9 (by decide)

/-- C2: the vertex shader returns a new vertex whose object-space fields
(position, normal, tex_coords, color) are exactly those of the input, and
whose transformed fields are freshly populated: the result does not depend on
the incoming transformed fields, which are overwritten. -/
theorem C2_pass_through (v : Vertex) (u : Uniforms) :
    (vertex_shader v u).position = v.position ∧
    (vertex_shader v u).normal = v.normal ∧
    (vertex_shader v u).tex_coords = v.tex_coords ∧
    (vertex_shader v u).color = v.color ∧
    ∀ tp tn : Vec3,
      vertex_shader { v with transformed_position := tp, transformed_normal := tn } u =
        vertex_shader v u :=
  ⟨rfl, rfl, rfl, rfl, fun _ _ => rfl⟩

/-- C5: the transformed normal written by the vertex shader equals the
inverse-transpose of the model matrix's 3x3 submatrix applied to the
object-space normal, with the identity used instead when that submatrix is
singular; the shader is total, never failing. -/
theorem C5_normal_transform (v : Vertex) (u : Uniforms) :
    (vertex_shader v u).transformed_normal =
      mul3v (specNormalMatrix u.model_matrix) v.normal := by
  show mul3v ((try_inverse3 (transpose3 (mat4_to_mat3 u.model_matrix))).getD id3) v.normal = _
  rw [normalMatrix_agrees]
  rfl

/-- C6: fragment_shader (hence every shader it dispatches to, the
black_and_white fallback included) is a deterministic pure function: two
calls with identical fragment, uniforms and index produce identical colors. -/
theorem C6_deterministic (ops : MathExt) (f1 f2 : Fragment) (u1 u2 : Uniforms)
    (i1 i2 : ℕ) (hf : f1 = f2) (hu : u1 = u2) (hi : i1 = i2) :
    fragment_shader ops f1 u1 i1 = fragment_shader ops f2 u2 i2 := by
  subst hf
  subst hu
  subst hi
  rfl

/-- Witness for C6 at a concrete repeated input. -/
theorem C6_deterministic_witness :
    fragment_shader exOps frag0 u0 4 = fragment_shader exOps frag0 u0 4 :=
  C6_deterministic exOps frag0 frag0 u0 u0 4 4 rfl rfl rfl

/-- C9: the triangle-assembly step of render builds exactly one triangle per
complete consecutive triple of the vertex list — floor(n/3) of them, the k-th
from indices 3k, 3k+1, 3k+2 — so one or two trailing vertices contribute no
triangle (and hence no fragments, as fragments only come from triangles). -/
theorem C9_triangle_count (vs : List Vertex) :
    buildTriangles vs =
      (List.range (vs.length / 3)).map (fun k =>
        (vs.getD (3 * k) default, vs.getD (3 * k + 1) default,
          vs.getD (3 * k + 2) default)) ∧
    (buildTriangles vs).length = vs.length / 3 := by
  have h := buildTrianglesAux_eq vs 0
  constructor
  · simpa using h
  · rw [buildTriangles, h]
    simp

/-- A fragment whose shading coordinate is (2,3,0). -/
def fragXY : Fragment := ⟨⟨0, 0⟩, 0, ⟨2, 3, 0⟩, ⟨0, 0, 1⟩, 1⟩

/-- A fragment whose shading coordinate is (3,2,0): x and y swapped. -/
def fragYX : Fragment := ⟨⟨0, 0⟩, 0, ⟨3, 2, 0⟩, ⟨0, 0, 1⟩, 1⟩

/-- Identity-matrix uniforms at time 1 with zero noise. -/
def uT1 : Uniforms := ⟨id4, id4, id4, id4, 1, noise0⟩

/-- C3 counterexample: at the configured instance center (-2,0,0) with speed
0.2, phase 0 and time 0 (so angle 0, where the concrete trig interpretation
agrees exactly with real cos and sin, and the radius is the exact square root
of 4), the code's orbit position is (2,0,0), not the claimed
center + radius*(cos,sin,0) = (0,0,0). -/
theorem C3_orbit_cex :
    orbit_position exOps ⟨-2, 0, 0⟩ (2 / 10) 0 0 ≠
      specOrbitClaim exOps ⟨-2, 0, 0⟩ (2 / 10) 0 0 := by
  simp only [orbit_position, specOrbitClaim, magnitude, exOps, Vec3.mk.injEq, not_and]
  intro hx
  norm_num at hx

/-- C3 (amended): the orchestrator derives the orbit position as
radius*(cos angle, sin angle) in x and y with only the configured center's z
kept — the circle is centered at the origin, not at the configured center —
with radius = |center| and angle = time*speed*0.01 + phase; an instance whose
center is the origin has radius zero and stays fixed at the origin. -/
theorem C3_orbit_amended (ops : MathExt) :
    (∀ (center : Vec3) (speed phase : F) (time : ℕ),
      orbit_position ops center speed phase time =
        specOrbitAmended ops center speed phase time) ∧
    (∀ (speed phase : F) (time : ℕ), ops.sqrt 0 = 0 →
      orbit_position ops ⟨0, 0, 0⟩ speed phase time = ⟨0, 0, 0⟩) := by
  constructor
  · intro center speed phase time
    rfl
  · intro speed phase time h
    simp [orbit_position, magnitude, h]

/-- Witness for C3 at a concrete origin-centered instance. -/
theorem C3_orbit_amended_witness :
    orbit_position exOps ⟨0, 0, 0⟩ 1 2 3 = ⟨0, 0, 0⟩ :=
  (C3_orbit_amended exOps).2 1 2 3 (by norm_num [exOps])

/-- C4 counterexample: with a projection matrix whose bottom row is zero, the
homogeneous w of the concrete vertex v1 is exactly zero, yet the code does
not skip: it returns an ordinary vertex where the spec-modelled degenerate
handling returns none. -/
theorem C4_no_skip_cex :
    vertex_shader_specC4 v1 uC4 ≠ some (vertex_shader v1 uC4) := by
  have h : clipW v1 uC4 = 0 := by
    norm_num [clipW, mul4, mulVec4, uC4, projW0, id4, v1]
  simp [vertex_shader_specC4, h]

/-- C4 (amended): the vertex shader has no degenerate-w branch: even when the
homogeneous w is exactly zero it performs the perspective divide and returns
a fully populated vertex (it never crashes or skips); in this exact-arithmetic
model the divided components are zero, so the resulting screen position is the
viewport transform of (0,0,0,1).  (In Rust, f32 division by zero produces
non-finite values, likewise without any crash or skip.) -/
theorem C4_no_skip (v : Vertex) (u : Uniforms) (h : clipW v u = 0) :
    (vertex_shader v u).transformed_position =
      ⟨(mulVec4 u.viewport_matrix ⟨0, 0, 0, 1⟩).x,
       (mulVec4 u.viewport_matrix ⟨0, 0, 0, 1⟩).y,
       (mulVec4 u.viewport_matrix ⟨0, 0, 0, 1⟩).z⟩ := by
  have h2 : (mulVec4 (mul4 (mul4 u.projection_matrix u.view_matrix) u.model_matrix)
      ⟨v.position.x, v.position.y, v.position.z, 1⟩).w = 0 := h
  simp only [vertex_shader, h2, div_zero]

/-- Witness for C4 at the concrete degenerate input. -/
theorem C4_no_skip_witness :
    clipW v1 uC4 = 0 ∧ (vertex_shader v1 uC4).transformed_position = ⟨0, 0, 0⟩ := by
  have h : clipW v1 uC4 = 0 := by
    norm_num [clipW, mul4, mulVec4, uC4, projW0, id4, v1]
  refine ⟨h, ?_⟩
  rw [C4_no_skip v1 uC4 h]
  norm_num [mulVec4, uC4, id4]

/-- C10: the fallback shader's pre-intensity black-or-white choice factors
through the truncated absolute product of time and the two shading
coordinates: any two inputs agreeing on that 64-bit seed get the same choice,
and whenever x or y is zero the seed is zero, giving the same fixed
(generator-determined) color at every time. -/
theorem C10_seed_dependence :
    (∀ (ops : MathExt) (f1 f2 : Fragment) (u1 u2 : Uniforms),
      castU64 |(u1.time : F) * f1.vertex_position.x * f1.vertex_position.y| =
        castU64 |(u2.time : F) * f2.vertex_position.x * f2.vertex_position.y| →
      bwChoice ops f1 u1 = bwChoice ops f2 u2) ∧
    (∀ (ops : MathExt) (f : Fragment) (u : Uniforms),
      f.vertex_position.x = 0 ∨ f.vertex_position.y = 0 →
      bwChoice ops f u =
        (if ops.rng100 0 < 50 then Color.new 0 0 0 else Color.new 255 255 255)) := by
  constructor
  · intro ops f1 f2 u1 u2 hseed
    simp only [bwChoice, bwSeedVal]
    simp only [show (u1.time : F) * f1.vertex_position.y * f1.vertex_position.x
          = (u1.time : F) * f1.vertex_position.x * f1.vertex_position.y from by ring,
        show (u2.time : F) * f2.vertex_position.y * f2.vertex_position.x
          = (u2.time : F) * f2.vertex_position.x * f2.vertex_position.y from by ring,
        hseed]
  · intro ops f u hxy
    rcases hxy with hx | hy
    · simp [bwChoice, bwSeedVal, hx, castU64]
    · simp [bwChoice, bwSeedVal, hy, castU64]

/-- Witness for C10: swapping the x and y coordinates preserves the truncated
seed and hence the choice, and an input with x = 0 receives the fixed
seed-zero color. -/
theorem C10_seed_dependence_witness :
    bwChoice exOps fragXY uT1 = bwChoice exOps fragYX uT1 ∧
    bwChoice exOps frag0 u0 =
      (if exOps.rng100 0 < 50 then Color.new 0 0 0 else Color.new 255 255 255) :=
  ⟨C10_seed_dependence.1 exOps fragXY fragYX uT1 uT1 (by norm_num [fragXY, fragYX, uT1]),
   C10_seed_dependence.2 exOps frag0 u0 (Or.inl rfl)⟩

/-- C7 counterexample: the lava shader is not a 2-to-4-band shader.  Even
restricted to intensity-one fragments, no list of at most four base colors
covers its outputs: five constant-valued noise fields make its continuous
lerp produce five pairwise distinct colors. -/
theorem C7_bands_cex :
    ¬ ∃ cs : List Color, cs.length ≤ 4 ∧
      ∀ t ∈ ([0, 1 / 4, 1 / 2, 3 / 4, 1] : List F),
        ∃ c ∈ cs, lava_shader exOps fragI (uLerp t) = c * fragI.intensity := by
  rintro ⟨cs, hlen, hall⟩
  obtain ⟨c0, hm0, he0⟩ := hall 0 (by simp)
  obtain ⟨c1, hm1, he1⟩ := hall (1 / 4) (by simp)
  obtain ⟨c2, hm2, he2⟩ := hall (1 / 2) (by simp)
  obtain ⟨c3, hm3, he3⟩ := hall (3 / 4) (by simp)
  obtain ⟨c4, hm4, he4⟩ := hall 1 (by simp)
  have v0 : lava_shader exOps fragI (uLerp 0) = ⟨130, 20, 0⟩ := by
    norm_num [lava_shader, exOps, fragI, uLerp, constNoise, Color.lerp, Color.new, clamp255,
      Color.scale, instHMulColorF]
  have v1 : lava_shader exOps fragI (uLerp (1 / 4)) = ⟨161, 75, 0⟩ := by
    norm_num [lava_shader, exOps, fragI, uLerp, constNoise, Color.lerp, Color.new, clamp255,
      Color.scale, instHMulColorF]
  have v2 : lava_shader exOps fragI (uLerp (1 / 2)) = ⟨192, 130, 0⟩ := by
    norm_num [lava_shader, exOps, fragI, uLerp, constNoise, Color.lerp, Color.new, clamp255,
      Color.scale, instHMulColorF]
  have v3 : lava_shader exOps fragI (uLerp (3 / 4)) = ⟨223, 185, 0⟩ := by
    norm_num [lava_shader, exOps, fragI, uLerp, constNoise, Color.lerp, Color.new, clamp255,
      Color.scale, instHMulColorF]
  have v4 : lava_shader exOps fragI (uLerp 1) = ⟨255, 240, 0⟩ := by
    norm_num [lava_shader, exOps, fragI, uLerp, constNoise, Color.lerp, Color.new, clamp255,
      Color.scale, instHMulColorF]
  have ho0 : (⟨130, 20, 0⟩ : Color) ∈ cs.map (fun c : Color => c * fragI.intensity) := by
    rw [v0.symm.trans he0]
    exact List.mem_map_of_mem _ hm0
  have ho1 : (⟨161, 75, 0⟩ : Color) ∈ cs.map (fun c : Color => c * fragI.intensity) := by
    rw [v1.symm.trans he1]
    exact List.mem_map_of_mem _ hm1
  have ho2 : (⟨192, 130, 0⟩ : Color) ∈ cs.map (fun c : Color => c * fragI.intensity) := by
    rw [v2.symm.trans he2]
    exact List.mem_map_of_mem _ hm2
  have ho3 : (⟨223, 185, 0⟩ : Color) ∈ cs.map (fun c : Color => c * fragI.intensity) := by
    rw [v3.symm.trans he3]
    exact List.mem_map_of_mem _ hm3
  have ho4 : (⟨255, 240, 0⟩ : Color) ∈ cs.map (fun c : Color => c * fragI.intensity) := by
    rw [v4.symm.trans he4]
    exact List.mem_map_of_mem _ hm4
  have hsub : ({⟨130, 20, 0⟩, ⟨161, 75, 0⟩, ⟨192, 130, 0⟩, ⟨223, 185, 0⟩,
      ⟨255, 240, 0⟩} : Finset Color) ⊆ (cs.map (fun c : Color => c * fragI.intensity)).toFinset := by
    intro x hx
    rw [List.mem_toFinset]
    simp only [Finset.mem_insert, Finset.mem_singleton] at hx
    rcases hx with rfl | rfl | rfl | rfl | rfl
    · exact ho0
    · exact ho1
    · exact ho2
    · exact ho3
    · exact ho4
  have hfive : (5 : ℕ) ≤ (cs.map (fun c : Color => c * fragI.intensity)).toFinset.card := by
    have : ({⟨130, 20, 0⟩, ⟨161, 75, 0⟩, ⟨192, 130, 0⟩, ⟨223, 185, 0⟩,
        ⟨255, 240, 0⟩} : Finset Color).card = 5 := by decide
    rw [← this]
    exact Finset.card_le_card hsub
  have hfour : (cs.map (fun c : Color => c * fragI.intensity)).toFinset.card ≤ 4 := by
    refine le_trans (List.toFinset_card_le _) ?_
    rw [List.length_map]
    exact hlen
  omega

/-- C7 (amended): seven of the eight procedural shaders (earth, dalmata,
cloud, cellular, rocky, solar, gaseous) bucket their sampled noise into 2 to
4 discrete bands, each band a fixed base color, and return the band's color
scaled by the fragment intensity; the lava shader instead blends continuously
between its two base colors by lerp on the averaged noise value before
scaling by the intensity. -/
theorem C7_bands_amended :
    (∀ (f : Fragment) (u : Uniforms), ∃ c ∈ [Color.new 0 105 148, Color.new 34 139 34,
        Color.new 139 69 19], earth_shader f u = c * f.intensity) ∧
    (∀ (f : Fragment) (u : Uniforms), ∃ c ∈ [Color.new 255 255 255, Color.new 0 0 0],
        dalmata_shader f u = c * f.intensity) ∧
    (∀ (f : Fragment) (u : Uniforms), ∃ c ∈ [Color.new 255 255 255, Color.new 30 97 145],
        cloud_shader f u = c * f.intensity) ∧
    (∀ (f : Fragment) (u : Uniforms), ∃ c ∈ [Color.new 85 107 47, Color.new 124 252 0,
        Color.new 34 139 34, Color.new 173 255 47], cellular_shader f u = c * f.intensity) ∧
    (∀ (f : Fragment) (u : Uniforms), ∃ c ∈ [Color.new 222 184 135, Color.new 205 133 63,
        Color.new 139 69 19], rocky_planet_shader f u = c * f.intensity) ∧
    (∀ (f : Fragment) (u : Uniforms), ∃ c ∈ [Color.new 255 215 0, Color.new 255 140 0,
        Color.new 255 69 0], solar_shader f u = c * f.intensity) ∧
    (∀ (f : Fragment) (u : Uniforms), ∃ c ∈ [Color.new 135 206 250, Color.new 176 224 230,
        Color.new 255 228 196], gaseous_planet_shader f u = c * f.intensity) ∧
    (∀ (ops : MathExt) (f : Fragment) (u : Uniforms),
      lava_shader ops f u = Color.lerp (Color.new 130 20 0) (Color.new 255 240 0)
        ((u.noise.get_noise_3d (f.vertex_position.x * 1000) (f.vertex_position.y * 1000)
            ((f.depth + ops.sin ((u.time : F) * (1 / 100) * (2 / 10)) * (1 / 2)) * 1000)
          + u.noise.get_noise_3d ((f.vertex_position.x + 1000) * 1000)
            ((f.vertex_position.y + 1000) * 1000)
            ((f.depth + 1000 + ops.sin ((u.time : F) * (1 / 100) * (2 / 10)) * (1 / 2)) * 1000))
          * (1 / 2)) * f.intensity) := by
  refine ⟨?_, ?_, ?_, ?_, ?_, ?_, ?_, fun ops f u => rfl⟩
  · intro f u
    simp only [earth_shader]
    split
    · exact ⟨Color.new 0 105 148, by simp, rfl⟩
    split
    · exact ⟨Color.new 34 139 34, by simp, rfl⟩
    · exact ⟨Color.new 139 69 19, by simp, rfl⟩
  · intro f u
    simp only [dalmata_shader]
    split
    · exact ⟨Color.new 255 255 255, by simp, rfl⟩
    · exact ⟨Color.new 0 0 0, by simp, rfl⟩
  · intro f u
    simp only [cloud_shader]
    split
    · exact ⟨Color.new 255 255 255, by simp, rfl⟩
    · exact ⟨Color.new 30 97 145, by simp, rfl⟩
  · intro f u
    simp only [cellular_shader]
    split
    · exact ⟨Color.new 85 107 47, by simp, rfl⟩
    split
    · exact ⟨Color.new 124 252 0, by simp, rfl⟩
    split
    · exact ⟨Color.new 34 139 34, by simp, rfl⟩
    · exact ⟨Color.new 173 255 47, by simp, rfl⟩
  · intro f u
    simp only [rocky_planet_shader]
    split
    · exact ⟨Color.new 222 184 135, by simp, rfl⟩
    split
    · exact ⟨Color.new 205 133 63, by simp, rfl⟩
    · exact ⟨Color.new 139 69 19, by simp, rfl⟩
  · intro f u
    simp only [solar_shader]
    split
    · exact ⟨Color.new 255 215 0, by simp, rfl⟩
    split
    · exact ⟨Color.new 255 140 0, by simp, rfl⟩
    · exact ⟨Color.new 255 69 0, by simp, rfl⟩
  · intro f u
    simp only [gaseous_planet_shader]
    split
    · exact ⟨Color.new 135 206 250, by simp, rfl⟩
    split
    · exact ⟨Color.new 176 224 230, by simp, rfl⟩
    · exact ⟨Color.new 255 228 196, by simp, rfl⟩

/-- C8: the render driver, not the framebuffer, enforces the pixel bounds:
every framebuffer write it emits (set_current_color followed by point) has
x < width and y < height; a fragment whose pixel fails the test produces no
write at all, silently. -/
theorem C8_bounds (tri : Vertex → Vertex → Vertex → List Fragment) (ops : MathExt)
    (fb : FramebufferDim) (u : Uniforms) (va : List Vertex) (si : ℕ)
    (w : PointWrite) (hw : w ∈ render tri ops fb u va si) :
    w.x < fb.width ∧ w.y < fb.height := by
  simp only [render, List.mem_filterMap] at hw
  obtain ⟨frag, hfrag, hsome⟩ := hw
  by_cases hb : castU64 frag.position.x < fb.width ∧ castU64 frag.position.y < fb.height
  · rw [if_pos hb] at hsome
    simp only [Option.some.injEq] at hsome
    subst hsome
    exact hb
  · rw [if_neg hb] at hsome
    exact Option.noConfusion hsome

/-- Witness for C8: a three-vertex array and a rasterizer stand-in emitting
one in-bounds fragment yield exactly one write, whose pixel is inside the
2 by 2 framebuffer. -/
theorem C8_bounds_witness :
    (⟨(fragment_shader exOps frag0 u0 0).to_hex, 0, 0, 0⟩ : PointWrite).x < 2 ∧
    (⟨(fragment_shader exOps frag0 u0 0).to_hex, 0, 0, 0⟩ : PointWrite).y < 2 :=
  C8_bounds tri0 exOps ⟨2, 2⟩ u0 [v1, v1, v1] 0 _ (by
    simp [render, buildTriangles, buildTrianglesAux, tri0, frag0, castU64])
